import Mathlib

/-!
Verification of the trash-lifecycle core of the WATHAQ teacher-file-organizer
service, shallowly embedded from the TypeScript source:

* `server/google-drive.ts`  — the external storage (Google Drive) HTTP client;
  each wrapper is modelled as a function of the provider's HTTP response.
* `server/repositories/supabase-repository.ts` — the Metadata Store access
  layer; each table is a Lean list of rows, each repository operation a pure
  function on those lists.  `new Date().toISOString()` timestamps are modelled
  by an explicit `now : Nat` parameter.
* `server/app.ts` — the Hono route handlers for the soft-delete / restore /
  permanent-delete / empty-trash workflow, plus project create/update and the
  `/api/*` auth middleware.

External effects (Drive HTTP responses, presence of a provider token, the
outcome of the one fallible DB insert) are inputs to the embedded handlers, so
that theorems can quantify over every failure pattern.  Console logging and
response ordering of SQL `ORDER BY` clauses are not modelled; no claim below
depends on them.
-/

/-- An HTTP response from the external storage provider, as observed by the
`google-drive.ts` client: the `ok` flag and the numeric status code. -/
structure DriveResponse where
  ok : Bool
  status : Nat
deriving Repr, DecidableEq

/-- Whether an `Except` result is a success (the TS function returned without
throwing). -/
def exceptOk {ε α : Type} : Except ε α → Bool
  | .ok _ => true
  | .error _ => false

namespace GoogleDrive

/-- Embeds `deleteFile` (google-drive.ts): DELETE files/:id; throws iff the
response is not ok and the status is not 404. -/
def deleteFile (resp : DriveResponse) : Except String Unit :=
  if ¬resp.ok ∧ resp.status ≠ 404 then .error "Failed to delete file" else .ok ()

/-- Embeds `trashFile` (google-drive.ts): PATCH trashed=true; throws iff the
response is not ok and the status is not 404. -/
def trashFile (resp : DriveResponse) : Except String Unit :=
  if ¬resp.ok ∧ resp.status ≠ 404 then .error "Failed to trash file" else .ok ()

/-- Embeds `untrashFile` (google-drive.ts): PATCH trashed=false; throws iff the
response is not ok and the status is not 404. -/
def untrashFile (resp : DriveResponse) : Except String Unit :=
  if ¬resp.ok ∧ resp.status ≠ 404 then .error "Failed to untrash file" else .ok ()

/-- Embeds `permanentDeleteFile` (google-drive.ts): DELETE files/:id; throws
iff the response is not ok and the status is not 404. -/
def permanentDeleteFile (resp : DriveResponse) : Except String Unit :=
  if ¬resp.ok ∧ resp.status ≠ 404 then .error "Failed to permanently delete file" else .ok ()

end GoogleDrive

/-- A row of the `projects` table (shared/schema.ts). -/
structure ProjectRow where
  id : String
  user_id : String
  title : String
  status : String
  root_drive_id : String
  is_deleted : Bool
  deleted_at : Option Nat
  created_at : Nat
  updated_at : Nat
deriving Repr, DecidableEq

/-- A row of the `folders` table. -/
structure FolderRow where
  id : String
  project_id : String
  parent_id : Option String
  folder_name : String
  sort_order : Nat
  drive_folder_id : String
  is_deleted : Bool
  deleted_at : Option Nat
  updated_at : Nat
deriving Repr, DecidableEq

/-- A row of the `files_metadata` table. -/
structure FileRow where
  id : String
  project_id : String
  folder_id : Option String
  drive_file_id : String
  file_name : String
  mime_type : String
  size_bytes : Option Nat
  web_view_link : Option String
  is_deleted : Bool
  deleted_at : Option Nat
  updated_at : Nat
deriving Repr, DecidableEq

/-- The Metadata Store state: the three tables the trash lifecycle touches. -/
structure DB where
  projects : List ProjectRow
  folders : List FolderRow
  files : List FileRow
deriving Repr, DecidableEq

namespace Repo

/-- Filters accepted by `projectsRepository.getAll`. -/
structure ProjectFilters where
  user_id : String
  status : Option String := none
  is_deleted : Option Bool := none

/-- The WHERE clause built by `projectsRepository.getAll`: `eq('user_id', …)`
always; `eq('status', …)` only when `filters.status` is truthy; `is_deleted`
filter defaulting to `false` when the filter is undefined. -/
def projectMatches (f : ProjectFilters) (r : ProjectRow) : Bool :=
  r.user_id == f.user_id &&
  (match f.status with
   | some s => if s ≠ "" then r.status == s else true
   | none => true) &&
  (match f.is_deleted with
   | some b => r.is_deleted == b
   | none => r.is_deleted == false)

/-- Embeds `projectsRepository.getAll` (ORDER BY created_at is not modelled). -/
def projectsGetAll (db : DB) (f : ProjectFilters) : List ProjectRow :=
  db.projects.filter (projectMatches f)

/-- Embeds `projectsRepository.getByIdWithoutUser`: select by id, `.single()`. -/
def projectGetByIdWithoutUser (db : DB) (id : String) : Option ProjectRow :=
  db.projects.find? (fun r => r.id == id)

/-- The row update performed by `projectsRepository.softDelete`. -/
def projectSoftDeleteRow (now : Nat) (r : ProjectRow) : ProjectRow :=
  { r with is_deleted := true, deleted_at := some now, updated_at := now }

/-- The row update performed by `projectsRepository.restore`. -/
def projectRestoreRow (now : Nat) (r : ProjectRow) : ProjectRow :=
  { r with is_deleted := false, deleted_at := none, updated_at := now }

/-- Embeds `projectsRepository.softDelete`: UPDATE … WHERE id AND user_id. -/
def projectsSoftDelete (db : DB) (id userId : String) (now : Nat) : DB :=
  { db with projects := db.projects.map (fun r =>
      if r.id == id && r.user_id == userId then projectSoftDeleteRow now r else r) }

/-- Embeds `projectsRepository.restore`: UPDATE … WHERE id AND user_id. -/
def projectsRestore (db : DB) (id userId : String) (now : Nat) : DB :=
  { db with projects := db.projects.map (fun r =>
      if r.id == id && r.user_id == userId then projectRestoreRow now r else r) }

/-- Embeds `projectsRepository.hardDelete`: DELETE … WHERE id AND user_id. -/
def projectsHardDelete (db : DB) (id userId : String) : DB :=
  { db with projects := db.projects.filter (fun r =>
      !(r.id == id && r.user_id == userId)) }

/-- Embeds `projectsRepository.updateWithoutUser` applied to one row: the
PATCH handler's updates object (`title` and `status` when truthy) plus the
repository's unconditional `updated_at` refresh. -/
def applyProjectUpdates (r : ProjectRow) (title? status? : Option String)
    (now : Nat) : ProjectRow :=
  let r1 := match title? with
    | some t => if t ≠ "" then { r with title := t } else r
    | none => r
  let r2 := match status? with
    | some s => if s ≠ "" then { r1 with status := s } else r1
    | none => r1
  { r2 with updated_at := now }

/-- Embeds `projectsRepository.updateWithoutUser`: UPDATE … WHERE id. -/
def projectsUpdateWithoutUser (db : DB) (id : String)
    (title? status? : Option String) (now : Nat) : DB :=
  { db with projects := db.projects.map (fun r =>
      if r.id == id then applyProjectUpdates r title? status? now else r) }

/-- Filters accepted by `foldersRepository.getAll`; `parent_id` is a
double option: outer `none` = filter undefined, `some none` = IS NULL. -/
structure FolderFilters where
  project_id : String
  parent_id : Option (Option String) := none
  is_deleted : Option Bool := none

/-- The WHERE clause built by `foldersRepository.getAll`. -/
def folderMatches (f : FolderFilters) (r : FolderRow) : Bool :=
  r.project_id == f.project_id &&
  (match f.parent_id with
   | some p => r.parent_id == p
   | none => true) &&
  (match f.is_deleted with
   | some b => r.is_deleted == b
   | none => r.is_deleted == false)

/-- Embeds `foldersRepository.getAll` (ORDER BY sort_order is not modelled). -/
def foldersGetAll (db : DB) (f : FolderFilters) : List FolderRow :=
  db.folders.filter (folderMatches f)

/-- Embeds `foldersRepository.getById`. -/
def folderGetById (db : DB) (id : String) : Option FolderRow :=
  db.folders.find? (fun r => r.id == id)

/-- The row update performed by `foldersRepository.softDelete`. -/
def folderSoftDeleteRow (now : Nat) (r : FolderRow) : FolderRow :=
  { r with is_deleted := true, deleted_at := some now, updated_at := now }

/-- The row update performed by `foldersRepository.restore`. -/
def folderRestoreRow (now : Nat) (r : FolderRow) : FolderRow :=
  { r with is_deleted := false, deleted_at := none, updated_at := now }

/-- Embeds `foldersRepository.softDelete`: UPDATE … WHERE id. -/
def foldersSoftDelete (db : DB) (id : String) (now : Nat) : DB :=
  { db with folders := db.folders.map (fun r =>
      if r.id == id then folderSoftDeleteRow now r else r) }

/-- Embeds `foldersRepository.restore`: UPDATE … WHERE id. -/
def foldersRestore (db : DB) (id : String) (now : Nat) : DB :=
  { db with folders := db.folders.map (fun r =>
      if r.id == id then folderRestoreRow now r else r) }

/-- Embeds `foldersRepository.hardDelete`: DELETE … WHERE id. -/
def foldersHardDelete (db : DB) (id : String) : DB :=
  { db with folders := db.folders.filter (fun r => !(r.id == id)) }

/-- Filters accepted by `filesMetadataRepository.getAll`; `project_id` and
`folder_id` are applied only when truthy. -/
structure FileFilters where
  project_id : Option String := none
  folder_id : Option String := none
  is_deleted : Option Bool := none

/-- The WHERE clause built by `filesMetadataRepository.getAll`. -/
def fileMatches (f : FileFilters) (r : FileRow) : Bool :=
  (match f.project_id with
   | some p => if p ≠ "" then r.project_id == p else true
   | none => true) &&
  (match f.folder_id with
   | some fo => if fo ≠ "" then r.folder_id == some fo else true
   | none => true) &&
  (match f.is_deleted with
   | some b => r.is_deleted == b
   | none => r.is_deleted == false)

/-- Embeds `filesMetadataRepository.getAll` (ORDER BY created_at not modelled). -/
def filesGetAll (db : DB) (f : FileFilters) : List FileRow :=
  db.files.filter (fileMatches f)

/-- Embeds `filesMetadataRepository.getById`. -/
def fileGetById (db : DB) (id : String) : Option FileRow :=
  db.files.find? (fun r => r.id == id)

/-- The row update performed by `filesMetadataRepository.softDelete`. -/
def fileSoftDeleteRow (now : Nat) (r : FileRow) : FileRow :=
  { r with is_deleted := true, deleted_at := some now, updated_at := now }

/-- The row update performed by `filesMetadataRepository.restore`. -/
def fileRestoreRow (now : Nat) (r : FileRow) : FileRow :=
  { r with is_deleted := false, deleted_at := none, updated_at := now }

/-- Embeds `filesMetadataRepository.softDelete`: UPDATE … WHERE id. -/
def filesSoftDelete (db : DB) (id : String) (now : Nat) : DB :=
  { db with files := db.files.map (fun r =>
      if r.id == id then fileSoftDeleteRow now r else r) }

/-- Embeds `filesMetadataRepository.restore`: UPDATE … WHERE id. -/
def filesRestore (db : DB) (id : String) (now : Nat) : DB :=
  { db with files := db.files.map (fun r =>
      if r.id == id then fileRestoreRow now r else r) }

/-- Embeds `filesMetadataRepository.hardDelete`: DELETE … WHERE id. -/
def filesHardDelete (db : DB) (id : String) : DB :=
  { db with files := db.files.filter (fun r => !(r.id == id)) }

end Repo

/-- Result of a route handler: the HTTP status sent and the Metadata Store
state after the request. -/
structure HResult where
  status : Nat
  db : DB
deriving Repr, DecidableEq

namespace Api

open Repo

/-- Embeds the `/api/*` auth middleware decision (app.ts).  `decoded` is the
result of `decodeJwt` on the `x-access-token` header (the base64/JSON parsing
itself is not re-modelled); JS truthiness of `decoded.sub`, `decoded.exp` and
the `x-user-id` header is made explicit.  Returns the `userId` variable the
middleware sets. -/
structure JwtPayload where
  sub : Option String := none
  exp : Option Nat := none
deriving Repr, DecidableEq

/-- JS truthiness of an optional string: present and non-empty. -/
def truthyStr : Option String → Bool
  | none => false
  | some s => s ≠ ""

/-- JS truthiness of an optional number: present and non-zero. -/
def truthyNat : Option Nat → Bool
  | none => false
  | some n => n ≠ 0

/-- The middleware body: expired-token check only when `decoded.exp` is
truthy; x-user-id conflict check; dev fallback outside production. -/
def authMiddleware (hasAccessToken : Bool) (decoded : Option JwtPayload)
    (userIdHeader : Option String) (now : Nat) (isProduction : Bool) :
    Option String :=
  if hasAccessToken then
    match decoded with
    | some d =>
      if truthyStr d.sub then
        let sub := d.sub.getD ""
        if truthyNat d.exp && d.exp.getD 0 < now then none
        else if truthyStr userIdHeader && userIdHeader.getD "" != sub then none
        else some sub
      else none
    | none => none
  else if !isProduction && truthyStr userIdHeader then userIdHeader
  else none

/-- Embeds DELETE /api/projects/:id (soft-delete a project).  `hasTok` is
whether `getValidProviderToken` yielded a token; `driveResp` the provider's
response to the mirrored `trashFile` call.  The mirror call sits in a
try/catch whose handler only logs, so its `Except` value is discarded. -/
def deleteProjectHandler (db : DB) (auth : Option String) (pid : String)
    (hasTok : Bool) (driveResp : DriveResponse) (now : Nat) : HResult :=
  match auth with
  | none => ⟨401, db⟩
  | some uid =>
    match projectGetByIdWithoutUser db pid with
    | none => ⟨404, db⟩
    | some p =>
      if p.user_id != uid then ⟨403, db⟩
      else
        let _mirror : Option (Except String Unit) :=
          if p.root_drive_id ≠ "" ∧ hasTok then some (GoogleDrive.trashFile driveResp)
          else none
        ⟨200, projectsSoftDelete db pid uid now⟩

/-- Embeds POST /api/projects/:id/restore: the project is looked up in
`getDeletedProjects(userId)` (the caller's soft-deleted projects), then the
mirror `untrashFile` is attempted and the row restored. -/
def restoreProjectHandler (db : DB) (auth : Option String) (pid : String)
    (hasTok : Bool) (driveResp : DriveResponse) (now : Nat) : HResult :=
  match auth with
  | none => ⟨401, db⟩
  | some uid =>
    let deletedProjects := projectsGetAll db { user_id := uid, is_deleted := some true }
    match deletedProjects.find? (fun r => r.id == pid) with
    | none => ⟨404, db⟩
    | some p =>
      if p.user_id != uid then ⟨403, db⟩
      else
        let _mirror : Option (Except String Unit) :=
          if p.root_drive_id ≠ "" ∧ hasTok then some (GoogleDrive.untrashFile driveResp)
          else none
        ⟨200, projectsRestore db pid uid now⟩

/-- Embeds DELETE /api/projects/:id/permanent: lookup in the caller's
soft-deleted projects, mirror `permanentDeleteFile`, hard-delete the row. -/
def permanentDeleteProjectHandler (db : DB) (auth : Option String) (pid : String)
    (hasTok : Bool) (driveResp : DriveResponse) : HResult :=
  match auth with
  | none => ⟨401, db⟩
  | some uid =>
    let deletedProjects := projectsGetAll db { user_id := uid, is_deleted := some true }
    match deletedProjects.find? (fun r => r.id == pid) with
    | none => ⟨404, db⟩
    | some p =>
      if p.user_id != uid then ⟨403, db⟩
      else
        let _mirror : Option (Except String Unit) :=
          if p.root_drive_id ≠ "" ∧ hasTok then some (GoogleDrive.permanentDeleteFile driveResp)
          else none
        ⟨200, projectsHardDelete db pid uid⟩

/-- Embeds PATCH /api/projects/:id: ownership check, then an update built
only from truthy `title` and `status` body fields. -/
def updateProjectHandler (db : DB) (auth : Option String) (pid : String)
    (title? status? : Option String) (now : Nat) : HResult :=
  match auth with
  | none => ⟨401, db⟩
  | some uid =>
    match projectGetByIdWithoutUser db pid with
    | none => ⟨404, db⟩
    | some p =>
      if p.user_id != uid then ⟨403, db⟩
      else ⟨200, projectsUpdateWithoutUser db pid title? status? now⟩

/-- Embeds DELETE /api/folders/:id (soft-delete a folder): folder lookup,
ownership via the owning project, mirror `trashFile`, soft-delete row. -/
def deleteFolderHandler (db : DB) (auth : Option String) (fid : String)
    (hasTok : Bool) (driveResp : DriveResponse) (now : Nat) : HResult :=
  match auth with
  | none => ⟨401, db⟩
  | some uid =>
    match folderGetById db fid with
    | none => ⟨404, db⟩
    | some folder =>
      match projectGetByIdWithoutUser db folder.project_id with
      | none => ⟨403, db⟩
      | some project =>
        if project.user_id != uid then ⟨403, db⟩
        else
          let _mirror : Option (Except String Unit) :=
            if folder.drive_folder_id ≠ "" ∧ hasTok then some (GoogleDrive.trashFile driveResp)
            else none
          ⟨200, foldersSoftDelete db fid now⟩

/-- Embeds POST /api/folders/:id/restore: 404 unless the folder exists and is
soft-deleted, then ownership, mirror `untrashFile`, restore row. -/
def restoreFolderHandler (db : DB) (auth : Option String) (fid : String)
    (hasTok : Bool) (driveResp : DriveResponse) (now : Nat) : HResult :=
  match auth with
  | none => ⟨401, db⟩
  | some uid =>
    match folderGetById db fid with
    | none => ⟨404, db⟩
    | some folder =>
      if !folder.is_deleted then ⟨404, db⟩
      else
        match projectGetByIdWithoutUser db folder.project_id with
        | none => ⟨403, db⟩
        | some project =>
          if project.user_id != uid then ⟨403, db⟩
          else
            let _mirror : Option (Except String Unit) :=
              if folder.drive_folder_id ≠ "" ∧ hasTok then some (GoogleDrive.untrashFile driveResp)
              else none
            ⟨200, foldersRestore db fid now⟩

/-- Embeds DELETE /api/folders/:id/permanent: 404 unless soft-deleted, then
ownership, mirror `permanentDeleteFile`, hard-delete row. -/
def permanentDeleteFolderHandler (db : DB) (auth : Option String) (fid : String)
    (hasTok : Bool) (driveResp : DriveResponse) : HResult :=
  match auth with
  | none => ⟨401, db⟩
  | some uid =>
    match folderGetById db fid with
    | none => ⟨404, db⟩
    | some folder =>
      if !folder.is_deleted then ⟨404, db⟩
      else
        match projectGetByIdWithoutUser db folder.project_id with
        | none => ⟨403, db⟩
        | some project =>
          if project.user_id != uid then ⟨403, db⟩
          else
            let _mirror : Option (Except String Unit) :=
              if folder.drive_folder_id ≠ "" ∧ hasTok then some (GoogleDrive.permanentDeleteFile driveResp)
              else none
            ⟨200, foldersHardDelete db fid⟩

/-- Embeds DELETE /api/files/:id (soft-delete a file). -/
def deleteFileHandler (db : DB) (auth : Option String) (fid : String)
    (hasTok : Bool) (driveResp : DriveResponse) (now : Nat) : HResult :=
  match auth with
  | none => ⟨401, db⟩
  | some uid =>
    match fileGetById db fid with
    | none => ⟨404, db⟩
    | some file =>
      match projectGetByIdWithoutUser db file.project_id with
      | none => ⟨403, db⟩
      | some project =>
        if project.user_id != uid then ⟨403, db⟩
        else
          let _mirror : Option (Except String Unit) :=
            if file.drive_file_id ≠ "" ∧ hasTok then some (GoogleDrive.trashFile driveResp)
            else none
          ⟨200, filesSoftDelete db fid now⟩

/-- Embeds POST /api/files/:id/restore. -/
def restoreFileHandler (db : DB) (auth : Option String) (fid : String)
    (hasTok : Bool) (driveResp : DriveResponse) (now : Nat) : HResult :=
  match auth with
  | none => ⟨401, db⟩
  | some uid =>
    match fileGetById db fid with
    | none => ⟨404, db⟩
    | some file =>
      if !file.is_deleted then ⟨404, db⟩
      else
        match projectGetByIdWithoutUser db file.project_id with
        | none => ⟨403, db⟩
        | some project =>
          if project.user_id != uid then ⟨403, db⟩
          else
            let _mirror : Option (Except String Unit) :=
              if file.drive_file_id ≠ "" ∧ hasTok then some (GoogleDrive.untrashFile driveResp)
              else none
            ⟨200, filesRestore db fid now⟩

/-- Embeds DELETE /api/files/:id/permanent. -/
def permanentDeleteFileHandler (db : DB) (auth : Option String) (fid : String)
    (hasTok : Bool) (driveResp : DriveResponse) : HResult :=
  match auth with
  | none => ⟨401, db⟩
  | some uid =>
    match fileGetById db fid with
    | none => ⟨404, db⟩
    | some file =>
      if !file.is_deleted then ⟨404, db⟩
      else
        match projectGetByIdWithoutUser db file.project_id with
        | none => ⟨403, db⟩
        | some project =>
          if project.user_id != uid then ⟨403, db⟩
          else
            let _mirror : Option (Except String Unit) :=
              if file.drive_file_id ≠ "" ∧ hasTok then some (GoogleDrive.permanentDeleteFile driveResp)
              else none
            ⟨200, filesHardDelete db fid⟩

/-- Result of GET /api/projects/:id/trash: status, (unchanged) store state and
the two lists returned in the JSON body. -/
structure TrashResult where
  status : Nat
  db : DB
  files : List FileRow
  folders : List FolderRow
deriving Repr, DecidableEq

/-- Embeds GET /api/projects/:id/trash (list_trash). -/
def listTrashHandler (db : DB) (auth : Option String) (pid : String) : TrashResult :=
  match auth with
  | none => ⟨401, db, [], []⟩
  | some uid =>
    match projectGetByIdWithoutUser db pid with
    | none => ⟨404, db, [], []⟩
    | some project =>
      if project.user_id != uid then ⟨403, db, [], []⟩
      else
        ⟨200, db,
         filesGetAll db { project_id := some pid, is_deleted := some true },
         foldersGetAll db { project_id := pid, is_deleted := some true }⟩

/-- The file loop of DELETE /api/projects/:id/trash: for each enumerated
soft-deleted file, attempt the mirrored permanent delete (response looked up
per drive id; a failure is caught and only logged) and hard-delete the row. -/
def purgeFiles (db : DB) (hasTok : Bool) (driveResps : String → DriveResponse)
    (L : List FileRow) : DB :=
  L.foldl (fun acc file =>
    let _mirror : Option (Except String Unit) :=
      if file.drive_file_id ≠ "" ∧ hasTok then
        some (GoogleDrive.permanentDeleteFile (driveResps file.drive_file_id))
      else none
    filesHardDelete acc file.id) db

/-- The folder loop of DELETE /api/projects/:id/trash, after the file loop. -/
def purgeFolders (db : DB) (hasTok : Bool) (driveResps : String → DriveResponse)
    (L : List FolderRow) : DB :=
  L.foldl (fun acc folder =>
    let _mirror : Option (Except String Unit) :=
      if folder.drive_folder_id ≠ "" ∧ hasTok then
        some (GoogleDrive.permanentDeleteFile (driveResps folder.drive_folder_id))
      else none
    foldersHardDelete acc folder.id) db

/-- Embeds DELETE /api/projects/:id/trash (empty_trash): enumerate the
project's soft-deleted files and purge each, then enumerate the project's
soft-deleted folders (on the state left by the file loop, as in the source)
and purge each; mirror failures never halt either loop. -/
def emptyTrashHandler (db : DB) (auth : Option String) (pid : String)
    (hasTok : Bool) (driveResps : String → DriveResponse) : HResult :=
  match auth with
  | none => ⟨401, db⟩
  | some uid =>
    match projectGetByIdWithoutUser db pid with
    | none => ⟨404, db⟩
    | some project =>
      if project.user_id != uid then ⟨403, db⟩
      else
        let db1 := purgeFiles db hasTok driveResps
          (filesGetAll db { project_id := some pid, is_deleted := some true })
        let db2 := purgeFolders db1 hasTok driveResps
          (foldersGetAll db1 { project_id := pid, is_deleted := some true })
        ⟨200, db2⟩

/-- The display name POST /api/projects builds for the project and its Drive
container: `TITLE - ACADEMIC_YEAR`, the year defaulting to the current one
(`yearNow`) when the body's academicYear is not truthy. -/
def projectDisplayName (title? academicYear? : Option String)
    (yearNow : String) : String :=
  (title?.getD "") ++ " - " ++
    (if truthyStr academicYear? then academicYear?.getD "" else yearNow)

/-- Result of POST /api/projects (create): status, store state, and whether
the compensating Drive delete was attempted. -/
structure CreateResult where
  status : Nat
  db : DB
  compensationAttempted : Bool
deriving Repr, DecidableEq

/-- Embeds POST /api/projects: title required; duplicate-title check over the
caller's active projects; provider token required; Drive folder created first
(`driveCreate` is its outcome — the created container id or an error); only
then the Metadata Store insert (`insertOk`, with `newId`/`now` standing for
the DB-generated columns).  If the insert fails, the handler attempts one
compensating `deleteFile` of the just-created container (`compResp` is the
provider's answer, caught and logged) and rethrows, so the outer catch
answers 500 with no row committed. -/
def createProjectHandler (db : DB) (auth : Option String)
    (title? academicYear? status? : Option String) (yearNow : String)
    (hasTok : Bool) (driveCreate : Except String String)
    (insertOk : Bool) (newId : String) (now : Nat)
    (compResp : DriveResponse) : CreateResult :=
  match auth with
  | none => ⟨401, db, false⟩
  | some uid =>
    if !truthyStr title? then ⟨400, db, false⟩
    else
      let name := projectDisplayName title? academicYear? yearNow
      let existing := projectsGetAll db { user_id := uid }
      if existing.any (fun p => p.title == name) then ⟨400, db, false⟩
      else if !hasTok then ⟨400, db, false⟩
      else
        match driveCreate with
        | .error _ => ⟨500, db, false⟩
        | .ok driveId =>
          if insertOk then
            ⟨201,
             { db with projects := db.projects ++
                 [{ id := newId, user_id := uid, title := name,
                    status := if truthyStr status? then status?.getD "" else "active",
                    root_drive_id := driveId, is_deleted := false,
                    deleted_at := none, created_at := now, updated_at := now }] },
             false⟩
          else
            let _comp : Except String Unit := GoogleDrive.deleteFile compResp
            ⟨500, db, true⟩

end Api

/-! Concrete sample data used by witnesses and counterexamples. -/

/-- A live project owned by alice. -/
def aliceProject : ProjectRow :=
  { id := "p1", user_id := "alice", title := "T - 2025", status := "active",
    root_drive_id := "d1", is_deleted := false, deleted_at := none,
    created_at := 0, updated_at := 0 }

/-- A soft-deleted project owned by alice. -/
def trashedProject : ProjectRow :=
  { aliceProject with
    id := "p2", root_drive_id := "d2", is_deleted := true,
    deleted_at := some 5 }

/-- A live folder in project p1. -/
def sampleFolder : FolderRow :=
  { id := "fo1", project_id := "p1", parent_id := none, folder_name := "F",
    sort_order := 0, drive_folder_id := "dfo1", is_deleted := false,
    deleted_at := none, updated_at := 0 }

/-- A soft-deleted folder in project p1. -/
def trashedFolder : FolderRow :=
  { sampleFolder with
    id := "fo2", drive_folder_id := "dfo2",
    is_deleted := true, deleted_at := some 5 }

/-- A live file in project p1. -/
def sampleFile : FileRow :=
  { id := "f1", project_id := "p1", folder_id := none, drive_file_id := "df1",
    file_name := "a.pdf", mime_type := "application/pdf", size_bytes := some 10,
    web_view_link := none, is_deleted := false, deleted_at := none,
    updated_at := 0 }

/-- A soft-deleted file in project p1. -/
def trashedFile : FileRow :=
  { sampleFile with
    id := "f2", drive_file_id := "df2", is_deleted := true,
    deleted_at := some 5 }

/-- A store with one live and one trashed row of each kind. -/
def sampleDB : DB :=
  { projects := [aliceProject, trashedProject],
    folders := [sampleFolder, trashedFolder],
    files := [sampleFile, trashedFile] }

/-- A failing provider response (HTTP 500): the mirror call raises. -/
def badResp : DriveResponse := { ok := false, status := 500 }

/-! Theorems. -/

/-- C7: in the external storage client, the trash, untrash, permanent-delete,
and delete operations treat an HTTP 404 response from the provider as
success — each returns normally exactly when the response is ok or its status
is 404, and raises an error exactly otherwise. -/
theorem C7_drive_client_treats_404_as_success :
    ∀ resp : DriveResponse,
      exceptOk (GoogleDrive.trashFile resp) = (resp.ok || resp.status == 404) ∧
      exceptOk (GoogleDrive.untrashFile resp) = (resp.ok || resp.status == 404) ∧
      exceptOk (GoogleDrive.permanentDeleteFile resp) = (resp.ok || resp.status == 404) ∧
      exceptOk (GoogleDrive.deleteFile resp) = (resp.ok || resp.status == 404) := by
  rintro ⟨ok, status⟩
  refine ⟨?_, ?_, ?_, ?_⟩ <;>
    · simp only [GoogleDrive.trashFile, GoogleDrive.untrashFile,
        GoogleDrive.permanentDeleteFile, GoogleDrive.deleteFile]
      cases ok <;> by_cases h : status = 404 <;> simp [h, exceptOk]

/-- C10: a request to an /api route carrying an x-access-token whose decoded
payload has a (non-empty) sub but no exp claim, with no conflicting x-user-id
header, is authenticated as userId = sub for any current time: the expiry
check only fires when an exp claim is present. -/
theorem C10_no_exp_claim_never_expires :
    ∀ (d : Api.JwtPayload) (s : String) (hdr : Option String) (now : Nat)
      (isProduction : Bool),
      d.sub = some s → s ≠ "" → d.exp = none →
      (hdr = none ∨ hdr = some s) →
      Api.authMiddleware true (some d) hdr now isProduction = some s := by
  intro d s hdr now isProduction hsub hs hexp hhdr
  simp only [Api.authMiddleware, Api.truthyStr, Api.truthyNat, hsub, hexp,
    if_true, Option.getD_some]
  rcases hhdr with rfl | rfl <;> simp [hs, Api.truthyStr]

/-- Closed witness for C10: a token for alice with no exp claim authenticates
at an arbitrary late time. -/
theorem C10_no_exp_claim_never_expires_witness :
    Api.authMiddleware true (some { sub := some "alice" }) none 999999999 true
      = some "alice" :=
  C10_no_exp_claim_never_expires { sub := some "alice" } "alice" none
    999999999 true rfl (by decide) rfl (Or.inl rfl)

/-- C5 counterexample: soft-delete then restore does not return the row to a
state identical to the original — the round trip rewrites updated_at (the
repository adds `updated_at: new Date().toISOString()` to both updates). -/
theorem C5_counterexample :
    Repo.fileRestoreRow 2 (Repo.fileSoftDeleteRow 1 sampleFile) ≠ sampleFile := by
  decide

/-- C5 (amended): for every entity kind, soft_delete followed by restore
clears is_deleted and deleted_at and leaves every other stored field
untouched except updated_at, which is set to the restore time. -/
theorem C5_soft_delete_restore_round_trip :
    ∀ (t1 t2 : Nat),
      (∀ r : FileRow, Repo.fileRestoreRow t2 (Repo.fileSoftDeleteRow t1 r)
        = { r with is_deleted := false, deleted_at := none, updated_at := t2 }) ∧
      (∀ r : ProjectRow, Repo.projectRestoreRow t2 (Repo.projectSoftDeleteRow t1 r)
        = { r with is_deleted := false, deleted_at := none, updated_at := t2 }) ∧
      (∀ r : FolderRow, Repo.folderRestoreRow t2 (Repo.folderSoftDeleteRow t1 r)
        = { r with is_deleted := false, deleted_at := none, updated_at := t2 }) := by
  intro t1 t2
  refine ⟨fun r => ?_, fun r => ?_, fun r => ?_⟩ <;> rfl



/-- C1: for every soft_delete, restore and hard_delete handler on a Project,
Folder or File whose preconditions (entity found by the handler's own lookup,
caller owns the project) hold, the result is HTTP 200 with the Metadata Store
transition applied, for EVERY provider response to the mirrored call — in
particular for a failing one — and for every token state: the mirror failure
is caught and never surfaced. -/
theorem C1_mirror_failure_not_surfaced :
    (∀ (db : DB) (uid pid : String) (p : ProjectRow) (hasTok : Bool)
        (resp : DriveResponse) (now : Nat),
        Repo.projectGetByIdWithoutUser db pid = some p → p.user_id = uid →
        Api.deleteProjectHandler db (some uid) pid hasTok resp now
          = ⟨200, Repo.projectsSoftDelete db pid uid now⟩) ∧
    (∀ (db : DB) (uid pid : String) (p : ProjectRow) (hasTok : Bool)
        (resp : DriveResponse) (now : Nat),
        (Repo.projectsGetAll db { user_id := uid, is_deleted := some true }).find?
            (fun r => r.id == pid) = some p →
        p.user_id = uid →
        Api.restoreProjectHandler db (some uid) pid hasTok resp now
          = ⟨200, Repo.projectsRestore db pid uid now⟩) ∧
    (∀ (db : DB) (uid pid : String) (p : ProjectRow) (hasTok : Bool)
        (resp : DriveResponse),
        (Repo.projectsGetAll db { user_id := uid, is_deleted := some true }).find?
            (fun r => r.id == pid) = some p →
        p.user_id = uid →
        Api.permanentDeleteProjectHandler db (some uid) pid hasTok resp
          = ⟨200, Repo.projectsHardDelete db pid uid⟩) ∧
    (∀ (db : DB) (uid fid : String) (folder : FolderRow) (project : ProjectRow)
        (hasTok : Bool) (resp : DriveResponse) (now : Nat),
        Repo.folderGetById db fid = some folder →
        Repo.projectGetByIdWithoutUser db folder.project_id = some project →
        project.user_id = uid →
        Api.deleteFolderHandler db (some uid) fid hasTok resp now
          = ⟨200, Repo.foldersSoftDelete db fid now⟩) ∧
    (∀ (db : DB) (uid fid : String) (folder : FolderRow) (project : ProjectRow)
        (hasTok : Bool) (resp : DriveResponse) (now : Nat),
        Repo.folderGetById db fid = some folder → folder.is_deleted = true →
        Repo.projectGetByIdWithoutUser db folder.project_id = some project →
        project.user_id = uid →
        Api.restoreFolderHandler db (some uid) fid hasTok resp now
          = ⟨200, Repo.foldersRestore db fid now⟩) ∧
    (∀ (db : DB) (uid fid : String) (folder : FolderRow) (project : ProjectRow)
        (hasTok : Bool) (resp : DriveResponse),
        Repo.folderGetById db fid = some folder → folder.is_deleted = true →
        Repo.projectGetByIdWithoutUser db folder.project_id = some project →
        project.user_id = uid →
        Api.permanentDeleteFolderHandler db (some uid) fid hasTok resp
          = ⟨200, Repo.foldersHardDelete db fid⟩) ∧
    (∀ (db : DB) (uid fid : String) (file : FileRow) (project : ProjectRow)
        (hasTok : Bool) (resp : DriveResponse) (now : Nat),
        Repo.fileGetById db fid = some file →
        Repo.projectGetByIdWithoutUser db file.project_id = some project →
        project.user_id = uid →
        Api.deleteFileHandler db (some uid) fid hasTok resp now
          = ⟨200, Repo.filesSoftDelete db fid now⟩) ∧
    (∀ (db : DB) (uid fid : String) (file : FileRow) (project : ProjectRow)
        (hasTok : Bool) (resp : DriveResponse) (now : Nat),
        Repo.fileGetById db fid = some file → file.is_deleted = true →
        Repo.projectGetByIdWithoutUser db file.project_id = some project →
        project.user_id = uid →
        Api.restoreFileHandler db (some uid) fid hasTok resp now
          = ⟨200, Repo.filesRestore db fid now⟩) ∧
    (∀ (db : DB) (uid fid : String) (file : FileRow) (project : ProjectRow)
        (hasTok : Bool) (resp : DriveResponse),
        Repo.fileGetById db fid = some file → file.is_deleted = true →
        Repo.projectGetByIdWithoutUser db file.project_id = some project →
        project.user_id = uid →
        Api.permanentDeleteFileHandler db (some uid) fid hasTok resp
          = ⟨200, Repo.filesHardDelete db fid⟩) := by
  refine ⟨?_, ?_, ?_, ?_, ?_, ?_, ?_, ?_, ?_⟩
  · intro db uid pid p hasTok resp now hfind howner
    simp [Api.deleteProjectHandler, hfind, howner]
  · intro db uid pid p hasTok resp now hfind howner
    simp [Api.restoreProjectHandler, hfind, howner]
  · intro db uid pid p hasTok resp hfind howner
    simp [Api.permanentDeleteProjectHandler, hfind, howner]
  · intro db uid fid folder project hasTok resp now hfo hpr howner
    simp [Api.deleteFolderHandler, hfo, hpr, howner]
  · intro db uid fid folder project hasTok resp now hfo hdel hpr howner
    simp [Api.restoreFolderHandler, hfo, hdel, hpr, howner]
  · intro db uid fid folder project hasTok resp hfo hdel hpr howner
    simp [Api.permanentDeleteFolderHandler, hfo, hdel, hpr, howner]
  · intro db uid fid file project hasTok resp now hfi hpr howner
    simp [Api.deleteFileHandler, hfi, hpr, howner]
  · intro db uid fid file project hasTok resp now hfi hdel hpr howner
    simp [Api.restoreFileHandler, hfi, hdel, hpr, howner]
  · intro db uid fid file project hasTok resp hfi hdel hpr howner
    simp [Api.permanentDeleteFileHandler, hfi, hdel, hpr, howner]

/-- Closed witness for C1: soft-deleting alice's live project while the Drive
mirror call answers HTTP 500 still yields 200 and the store transition. -/
theorem C1_mirror_failure_not_surfaced_witness :
    Api.deleteProjectHandler sampleDB (some "alice") "p1" true badResp 9
      = ⟨200, Repo.projectsSoftDelete sampleDB "p1" "alice" 9⟩ :=
  C1_mirror_failure_not_surfaced.1 sampleDB "alice" "p1" aliceProject true
    badResp 9 (by decide) rfl

/-- C2: for every entity kind, restore and hard_delete (permanent delete) on
an entity whose is_deleted flag is false answer 404 NotFound and leave the
store unchanged: hard_delete is only reachable on an entity that was first
soft-deleted.  For Folders and Files the handler checks `!entity.is_deleted`
directly; for Projects the entity is looked up among the caller's soft-deleted
projects, so a live project is simply not found. -/
theorem C2_wrong_state_is_not_found :
    (∀ (db : DB) (uid fid : String) (file : FileRow) (hasTok : Bool)
        (resp : DriveResponse) (now : Nat),
        Repo.fileGetById db fid = some file → file.is_deleted = false →
        Api.restoreFileHandler db (some uid) fid hasTok resp now = ⟨404, db⟩) ∧
    (∀ (db : DB) (uid fid : String) (file : FileRow) (hasTok : Bool)
        (resp : DriveResponse),
        Repo.fileGetById db fid = some file → file.is_deleted = false →
        Api.permanentDeleteFileHandler db (some uid) fid hasTok resp = ⟨404, db⟩) ∧
    (∀ (db : DB) (uid fid : String) (folder : FolderRow) (hasTok : Bool)
        (resp : DriveResponse) (now : Nat),
        Repo.folderGetById db fid = some folder → folder.is_deleted = false →
        Api.restoreFolderHandler db (some uid) fid hasTok resp now = ⟨404, db⟩) ∧
    (∀ (db : DB) (uid fid : String) (folder : FolderRow) (hasTok : Bool)
        (resp : DriveResponse),
        Repo.folderGetById db fid = some folder → folder.is_deleted = false →
        Api.permanentDeleteFolderHandler db (some uid) fid hasTok resp = ⟨404, db⟩) ∧
    (∀ (db : DB) (uid pid : String) (hasTok : Bool) (resp : DriveResponse)
        (now : Nat),
        (∀ r ∈ db.projects, r.id = pid → r.is_deleted = false) →
        Api.restoreProjectHandler db (some uid) pid hasTok resp now = ⟨404, db⟩) ∧
    (∀ (db : DB) (uid pid : String) (hasTok : Bool) (resp : DriveResponse),
        (∀ r ∈ db.projects, r.id = pid → r.is_deleted = false) →
        Api.permanentDeleteProjectHandler db (some uid) pid hasTok resp = ⟨404, db⟩) := by
  have hproj : ∀ (db : DB) (uid pid : String),
      (∀ r ∈ db.projects, r.id = pid → r.is_deleted = false) →
      (Repo.projectsGetAll db { user_id := uid, is_deleted := some true }).find?
        (fun r => r.id == pid) = none := by
    intro db uid pid h
    rw [List.find?_eq_none]
    intro r hr
    simp only [Repo.projectsGetAll, List.mem_filter, Repo.projectMatches,
      Bool.and_eq_true, beq_iff_eq] at hr
    obtain ⟨hmem, -, hdel⟩ := hr
    simp only [beq_iff_eq]
    intro heq
    rw [h r hmem heq] at hdel
    exact Bool.false_ne_true hdel
  refine ⟨?_, ?_, ?_, ?_, ?_, ?_⟩
  · intro db uid fid file hasTok resp now hfind hlive
    simp [Api.restoreFileHandler, hfind, hlive]
  · intro db uid fid file hasTok resp hfind hlive
    simp [Api.permanentDeleteFileHandler, hfind, hlive]
  · intro db uid fid folder hasTok resp now hfind hlive
    simp [Api.restoreFolderHandler, hfind, hlive]
  · intro db uid fid folder hasTok resp hfind hlive
    simp [Api.permanentDeleteFolderHandler, hfind, hlive]
  · intro db uid pid hasTok resp now h
    simp [Api.restoreProjectHandler, hproj db uid pid h]
  · intro db uid pid hasTok resp h
    simp [Api.permanentDeleteProjectHandler, hproj db uid pid h]

/-- Closed witness for C2: restoring the live file f1 answers 404 and leaves
the store untouched. -/
theorem C2_wrong_state_is_not_found_witness :
    Api.restoreFileHandler sampleDB (some "alice") "f1" true badResp 9
      = ⟨404, sampleDB⟩ :=
  C2_wrong_state_is_not_found.1 sampleDB "alice" "f1" sampleFile true badResp 9
    (by decide) rfl

/-- C6 counterexample: the soft-delete handlers have no is-active
precondition — soft-deleting the already soft-deleted project p2 succeeds
(HTTP 200) and rewrites the row (deleted_at jumps from 5 to the new time 9),
so soft_delete is performed on an entity whose is_deleted flag is true. -/
theorem C6_counterexample :
    (Api.deleteProjectHandler sampleDB (some "alice") "p2" true badResp 9).status
        = 200 ∧
    (Api.deleteProjectHandler sampleDB (some "alice") "p2" true badResp 9).db
        ≠ sampleDB := by
  constructor
  · decide
  · decide

/-- C6 (amended): soft_delete requires only that the entity exists and that
the caller owns the owning project; it is applied whatever the entity's
is_deleted flag, so re-soft-deleting an already soft-deleted entity also
succeeds and refreshes deleted_at/updated_at. -/
theorem C6_soft_delete_ignores_state :
    (∀ (db : DB) (uid pid : String) (p : ProjectRow) (hasTok : Bool)
        (resp : DriveResponse) (now : Nat),
        Repo.projectGetByIdWithoutUser db pid = some p → p.user_id = uid →
        p.is_deleted = true →
        Api.deleteProjectHandler db (some uid) pid hasTok resp now
          = ⟨200, Repo.projectsSoftDelete db pid uid now⟩) ∧
    (∀ (db : DB) (uid fid : String) (folder : FolderRow) (project : ProjectRow)
        (hasTok : Bool) (resp : DriveResponse) (now : Nat),
        Repo.folderGetById db fid = some folder →
        Repo.projectGetByIdWithoutUser db folder.project_id = some project →
        project.user_id = uid → folder.is_deleted = true →
        Api.deleteFolderHandler db (some uid) fid hasTok resp now
          = ⟨200, Repo.foldersSoftDelete db fid now⟩) ∧
    (∀ (db : DB) (uid fid : String) (file : FileRow) (project : ProjectRow)
        (hasTok : Bool) (resp : DriveResponse) (now : Nat),
        Repo.fileGetById db fid = some file →
        Repo.projectGetByIdWithoutUser db file.project_id = some project →
        project.user_id = uid → file.is_deleted = true →
        Api.deleteFileHandler db (some uid) fid hasTok resp now
          = ⟨200, Repo.filesSoftDelete db fid now⟩) := by
  refine ⟨?_, ?_, ?_⟩
  · intro db uid pid p hasTok resp now hfind howner _
    simp [Api.deleteProjectHandler, hfind, howner]
  · intro db uid fid folder project hasTok resp now hfo hpr howner _
    simp [Api.deleteFolderHandler, hfo, hpr, howner]
  · intro db uid fid file project hasTok resp now hfi hpr howner _
    simp [Api.deleteFileHandler, hfi, hpr, howner]

/-- Closed witness for C6 (amended): soft-deleting the already trashed file f2
succeeds and re-applies the soft-delete transition. -/
theorem C6_soft_delete_ignores_state_witness :
    Api.deleteFileHandler sampleDB (some "alice") "f2" true badResp 9
      = ⟨200, Repo.filesSoftDelete sampleDB "f2" 9⟩ :=
  C6_soft_delete_ignores_state.2.2 sampleDB "alice" "f2" trashedFile
    aliceProject true badResp 9 (by decide) (by decide) rfl rfl

/-- C4 counterexample: bob (authenticated, not the owner) calls restore on
alice's valid soft-deleted project p2 and receives 404, not the claimed 403:
the handler looks the project up among the CALLER's soft-deleted projects, so
a non-owner never reaches the Forbidden branch for project restore. -/
theorem C4_counterexample :
    (Api.restoreProjectHandler sampleDB (some "bob") "p2" true badResp 9).status
        = 404 ∧
    (Api.restoreProjectHandler sampleDB (some "bob") "p2" true badResp 9).status
        ≠ 403 := by
  constructor
  · decide
  · decide

/-- C4 (amended): an authenticated non-owner causes no state change and
receives Forbidden (403) for soft_delete of a Project, Folder or File, for
restore and hard_delete of a soft-deleted Folder or File, and for empty_trash
and list_trash; but for restore and hard_delete of a Project a non-owner
receives NotFound (404) instead, because the handler searches only the
caller's own soft-deleted projects. -/
theorem C4_non_owner_access :
    (∀ (db : DB) (uid pid : String) (p : ProjectRow) (hasTok : Bool)
        (resp : DriveResponse) (now : Nat),
        Repo.projectGetByIdWithoutUser db pid = some p → p.user_id ≠ uid →
        Api.deleteProjectHandler db (some uid) pid hasTok resp now = ⟨403, db⟩) ∧
    (∀ (db : DB) (uid fid : String) (folder : FolderRow) (project : ProjectRow)
        (hasTok : Bool) (resp : DriveResponse) (now : Nat),
        Repo.folderGetById db fid = some folder →
        Repo.projectGetByIdWithoutUser db folder.project_id = some project →
        project.user_id ≠ uid →
        Api.deleteFolderHandler db (some uid) fid hasTok resp now = ⟨403, db⟩) ∧
    (∀ (db : DB) (uid fid : String) (file : FileRow) (project : ProjectRow)
        (hasTok : Bool) (resp : DriveResponse) (now : Nat),
        Repo.fileGetById db fid = some file →
        Repo.projectGetByIdWithoutUser db file.project_id = some project →
        project.user_id ≠ uid →
        Api.deleteFileHandler db (some uid) fid hasTok resp now = ⟨403, db⟩) ∧
    (∀ (db : DB) (uid fid : String) (folder : FolderRow) (project : ProjectRow)
        (hasTok : Bool) (resp : DriveResponse) (now : Nat),
        Repo.folderGetById db fid = some folder → folder.is_deleted = true →
        Repo.projectGetByIdWithoutUser db folder.project_id = some project →
        project.user_id ≠ uid →
        Api.restoreFolderHandler db (some uid) fid hasTok resp now = ⟨403, db⟩) ∧
    (∀ (db : DB) (uid fid : String) (folder : FolderRow) (project : ProjectRow)
        (hasTok : Bool) (resp : DriveResponse),
        Repo.folderGetById db fid = some folder → folder.is_deleted = true →
        Repo.projectGetByIdWithoutUser db folder.project_id = some project →
        project.user_id ≠ uid →
        Api.permanentDeleteFolderHandler db (some uid) fid hasTok resp = ⟨403, db⟩) ∧
    (∀ (db : DB) (uid fid : String) (file : FileRow) (project : ProjectRow)
        (hasTok : Bool) (resp : DriveResponse) (now : Nat),
        Repo.fileGetById db fid = some file → file.is_deleted = true →
        Repo.projectGetByIdWithoutUser db file.project_id = some project →
        project.user_id ≠ uid →
        Api.restoreFileHandler db (some uid) fid hasTok resp now = ⟨403, db⟩) ∧
    (∀ (db : DB) (uid fid : String) (file : FileRow) (project : ProjectRow)
        (hasTok : Bool) (resp : DriveResponse),
        Repo.fileGetById db fid = some file → file.is_deleted = true →
        Repo.projectGetByIdWithoutUser db file.project_id = some project →
        project.user_id ≠ uid →
        Api.permanentDeleteFileHandler db (some uid) fid hasTok resp = ⟨403, db⟩) ∧
    (∀ (db : DB) (uid pid : String) (p : ProjectRow),
        Repo.projectGetByIdWithoutUser db pid = some p → p.user_id ≠ uid →
        Api.listTrashHandler db (some uid) pid = ⟨403, db, [], []⟩) ∧
    (∀ (db : DB) (uid pid : String) (p : ProjectRow) (hasTok : Bool)
        (driveResps : String → DriveResponse),
        Repo.projectGetByIdWithoutUser db pid = some p → p.user_id ≠ uid →
        Api.emptyTrashHandler db (some uid) pid hasTok driveResps = ⟨403, db⟩) ∧
    (∀ (db : DB) (uid pid : String) (hasTok : Bool) (resp : DriveResponse)
        (now : Nat),
        (∀ r ∈ db.projects, r.id = pid → r.user_id ≠ uid) →
        Api.restoreProjectHandler db (some uid) pid hasTok resp now = ⟨404, db⟩) ∧
    (∀ (db : DB) (uid pid : String) (hasTok : Bool) (resp : DriveResponse),
        (∀ r ∈ db.projects, r.id = pid → r.user_id ≠ uid) →
        Api.permanentDeleteProjectHandler db (some uid) pid hasTok resp = ⟨404, db⟩) := by
  have huser : ∀ (db : DB) (uid pid : String),
      (∀ r ∈ db.projects, r.id = pid → r.user_id ≠ uid) →
      (Repo.projectsGetAll db { user_id := uid, is_deleted := some true }).find?
        (fun r => r.id == pid) = none := by
    intro db uid pid h
    rw [List.find?_eq_none]
    intro r hr
    simp only [Repo.projectsGetAll, List.mem_filter, Repo.projectMatches,
      Bool.and_eq_true, beq_iff_eq] at hr
    obtain ⟨hmem, ⟨howner, -⟩, -⟩ := hr
    simp only [beq_iff_eq]
    intro heq
    exact h r hmem heq howner
  refine ⟨?_, ?_, ?_, ?_, ?_, ?_, ?_, ?_, ?_, ?_, ?_⟩
  · intro db uid pid p hasTok resp now hfind hne
    simp [Api.deleteProjectHandler, hfind, hne]
  · intro db uid fid folder project hasTok resp now hfo hpr hne
    simp [Api.deleteFolderHandler, hfo, hpr, hne]
  · intro db uid fid file project hasTok resp now hfi hpr hne
    simp [Api.deleteFileHandler, hfi, hpr, hne]
  · intro db uid fid folder project hasTok resp now hfo hdel hpr hne
    simp [Api.restoreFolderHandler, hfo, hdel, hpr, hne]
  · intro db uid fid folder project hasTok resp hfo hdel hpr hne
    simp [Api.permanentDeleteFolderHandler, hfo, hdel, hpr, hne]
  · intro db uid fid file project hasTok resp now hfi hdel hpr hne
    simp [Api.restoreFileHandler, hfi, hdel, hpr, hne]
  · intro db uid fid file project hasTok resp hfi hdel hpr hne
    simp [Api.permanentDeleteFileHandler, hfi, hdel, hpr, hne]
  · intro db uid pid p hfind hne
    simp [Api.listTrashHandler, hfind, hne]
  · intro db uid pid p hasTok driveResps hfind hne
    simp [Api.emptyTrashHandler, hfind, hne]
  · intro db uid pid hasTok resp now h
    simp [Api.restoreProjectHandler, huser db uid pid h]
  · intro db uid pid hasTok resp h
    simp [Api.permanentDeleteProjectHandler, huser db uid pid h]

/-- Closed witness for C4 (amended): bob soft-deleting alice's project p1
receives 403 with no state change. -/
theorem C4_non_owner_access_witness :
    Api.deleteProjectHandler sampleDB (some "bob") "p1" true badResp 9
      = ⟨403, sampleDB⟩ :=
  C4_non_owner_access.1 sampleDB "bob" "p1" aliceProject true badResp 9
    (by decide) (by decide)

/-- Folding per-victim row deletions over a victim list is one filter that
discards every row whose key equals some victim's key. -/
theorem foldl_filter_by_key {α β : Type} [BEq β] (key : α → β) (L fs : List α) :
    L.foldl (fun acc f => acc.filter (fun r => !(key r == key f))) fs
      = fs.filter (fun r => !(L.any (fun f => key r == key f))) := by
  induction L generalizing fs with
  | nil => simp
  | cons f L ih =>
    rw [List.foldl_cons, ih, List.filter_filter]
    apply List.filter_congr
    intro r _
    simp only [List.any_cons, Bool.not_or]
    exact Bool.and_comm _ _

/-- On a list with pairwise-distinct keys, membership of a row's key among
the keys of the rows selected by `m` is just `m` of that row. -/
theorem any_key_filter {α : Type} (key : α → String) (m : α → Bool)
    (fs : List α) (h : (fs.map key).Nodup) (r : α) (hr : r ∈ fs) :
    (fs.filter m).any (fun f => key r == key f) = m r := by
  cases hm : m r with
  | true =>
    rw [List.any_eq_true]
    exact ⟨r, List.mem_filter.2 ⟨hr, hm⟩, by simp⟩
  | false =>
    rw [List.any_eq_false]
    intro x hx
    obtain ⟨hx1, hx2⟩ := List.mem_filter.1 hx
    simp only [beq_iff_eq]
    intro hkey
    cases List.inj_on_of_nodup_map h hr hx1 hkey
    rw [hm] at hx2
    exact Bool.false_ne_true hx2

/-- Discarding from `fs` the rows whose key occurs among the keys of
`fs.filter m` is, when keys are pairwise distinct, discarding the rows
selected by `m`. -/
theorem filter_not_any_filter {α : Type} (key : α → String) (m : α → Bool)
    (fs : List α) (h : (fs.map key).Nodup) :
    fs.filter (fun r => !((fs.filter m).any (fun f => key r == key f)))
      = fs.filter (fun r => !(m r)) := by
  apply List.filter_congr
  intro r hr
  rw [any_key_filter key m fs h r hr]

/-- The file loop of empty_trash, projected to the files table. -/
theorem purgeFiles_files (db : DB) (hasTok : Bool)
    (dr : String → DriveResponse) (L : List FileRow) :
    (Api.purgeFiles db hasTok dr L).files
      = L.foldl (fun fs file => fs.filter (fun r => !(FileRow.id r == FileRow.id file)))
          db.files := by
  unfold Api.purgeFiles
  induction L generalizing db with
  | nil => rfl
  | cons f L ih =>
    rw [List.foldl_cons, List.foldl_cons, ih]
    rfl

/-- The file loop of empty_trash leaves the folders table unchanged. -/
theorem purgeFiles_folders (db : DB) (hasTok : Bool)
    (dr : String → DriveResponse) (L : List FileRow) :
    (Api.purgeFiles db hasTok dr L).folders = db.folders := by
  unfold Api.purgeFiles
  induction L generalizing db with
  | nil => rfl
  | cons f L ih =>
    rw [List.foldl_cons, ih]
    rfl

/-- The file loop of empty_trash leaves the projects table unchanged. -/
theorem purgeFiles_projects (db : DB) (hasTok : Bool)
    (dr : String → DriveResponse) (L : List FileRow) :
    (Api.purgeFiles db hasTok dr L).projects = db.projects := by
  unfold Api.purgeFiles
  induction L generalizing db with
  | nil => rfl
  | cons f L ih =>
    rw [List.foldl_cons, ih]
    rfl

/-- The folder loop of empty_trash, projected to the folders table. -/
theorem purgeFolders_folders (db : DB) (hasTok : Bool)
    (dr : String → DriveResponse) (L : List FolderRow) :
    (Api.purgeFolders db hasTok dr L).folders
      = L.foldl (fun fs folder => fs.filter (fun r => !(FolderRow.id r == FolderRow.id folder)))
          db.folders := by
  unfold Api.purgeFolders
  induction L generalizing db with
  | nil => rfl
  | cons f L ih =>
    rw [List.foldl_cons, List.foldl_cons, ih]
    rfl

/-- The folder loop of empty_trash leaves the files table unchanged. -/
theorem purgeFolders_files (db : DB) (hasTok : Bool)
    (dr : String → DriveResponse) (L : List FolderRow) :
    (Api.purgeFolders db hasTok dr L).files = db.files := by
  unfold Api.purgeFolders
  induction L generalizing db with
  | nil => rfl
  | cons f L ih =>
    rw [List.foldl_cons, ih]
    rfl

/-- The folder loop of empty_trash leaves the projects table unchanged. -/
theorem purgeFolders_projects (db : DB) (hasTok : Bool)
    (dr : String → DriveResponse) (L : List FolderRow) :
    (Api.purgeFolders db hasTok dr L).projects = db.projects := by
  unfold Api.purgeFolders
  induction L generalizing db with
  | nil => rfl
  | cons f L ih =>
    rw [List.foldl_cons, ih]
    rfl

/-- The files enumerated by empty_trash: the project's soft-deleted files. -/
theorem filesGetAll_trash (db : DB) (pid : String) (hpid : pid ≠ "") :
    Repo.filesGetAll db { project_id := some pid, is_deleted := some true }
      = db.files.filter (fun r => r.project_id == pid && r.is_deleted) := by
  unfold Repo.filesGetAll
  apply List.filter_congr
  intro r _
  simp [Repo.fileMatches, hpid]

/-- The folders enumerated by empty_trash: the project's soft-deleted
folders. -/
theorem foldersGetAll_trash (db : DB) (pid : String) :
    Repo.foldersGetAll db { project_id := pid, is_deleted := some true }
      = db.folders.filter (fun r => r.project_id == pid && r.is_deleted) := by
  unfold Repo.foldersGetAll
  apply List.filter_congr
  intro r _
  simp [Repo.folderMatches]

/-- Two stores with equal component tables are equal. -/
theorem DB.ext_components (a b : DB) (h1 : a.projects = b.projects)
    (h2 : a.folders = b.folders) (h3 : a.files = b.files) : a = b := by
  cases a
  cases b
  cases h1
  cases h2
  cases h3
  rfl

/-- C3: empty_trash on a project answers 200 and, for every pattern of
provider responses to the mirrored permanent-delete calls and any token
state, removes from the Metadata Store exactly the project's Files and
Folders with is_deleted = true, leaves every row with is_deleted = false (and
every row of other projects) in place, and never touches the projects
table. -/
theorem C3_empty_trash_purges_exactly_the_trashed (db : DB) (uid pid : String)
    (project : ProjectRow) (hasTok : Bool) (driveResps : String → DriveResponse)
    (hfind : Repo.projectGetByIdWithoutUser db pid = some project)
    (howner : project.user_id = uid) (hpid : pid ≠ "")
    (hfids : (db.files.map (fun r => r.id)).Nodup)
    (hfoids : (db.folders.map (fun r => r.id)).Nodup) :
    Api.emptyTrashHandler db (some uid) pid hasTok driveResps
      = ⟨200,
         { projects := db.projects,
           folders := db.folders.filter (fun r => !(r.project_id == pid && r.is_deleted)),
           files := db.files.filter (fun r => !(r.project_id == pid && r.is_deleted)) }⟩ := by
  simp only [Api.emptyTrashHandler, hfind, howner, bne_self_eq_false,
    Bool.false_eq_true, if_false]
  congr 1
  refine DB.ext_components _ _ ?_ ?_ ?_
  · rw [purgeFolders_projects, purgeFiles_projects]
  · rw [purgeFolders_folders, foldersGetAll_trash, purgeFiles_folders,
      foldl_filter_by_key FolderRow.id]
    exact filter_not_any_filter FolderRow.id _ db.folders hfoids
  · rw [purgeFolders_files, purgeFiles_files, filesGetAll_trash db pid hpid,
      foldl_filter_by_key FileRow.id]
    exact filter_not_any_filter FileRow.id _ db.files hfids

/-- Closed witness for C3: emptying the trash of p1 with every mirror call
answering HTTP 500 still purges exactly the trashed rows f2 and fo2. -/
theorem C3_empty_trash_purges_exactly_the_trashed_witness :
    Api.emptyTrashHandler sampleDB (some "alice") "p1" true (fun _ => badResp)
      = ⟨200,
         { projects := sampleDB.projects,
           folders := sampleDB.folders.filter (fun r => !(r.project_id == "p1" && r.is_deleted)),
           files := sampleDB.files.filter (fun r => !(r.project_id == "p1" && r.is_deleted)) }⟩ :=
  C3_empty_trash_purges_exactly_the_trashed sampleDB "alice" "p1" aliceProject
    true (fun _ => badResp) (by decide) rfl (by decide) (by decide) (by decide)

/-- C8: project creation is two-phase.  (i) Whenever the external container
create fails, no Metadata Store row is committed, nothing is reported created
and no compensation runs; (ii) when the external create succeeds and the
Metadata Store insert then fails, the handler attempts the compensating
delete of the just-created container and reports failure (500) with no row
committed; (iii) the outcome of the compensating delete itself is caught and
never changes the result; (iv) when both phases succeed, the row is committed
with the just-created container id as root_drive_id and 201 is returned. -/
theorem C8_project_create_two_phase :
    (∀ (db : DB) (auth : Option String)
        (title? academicYear? status? : Option String) (yearNow : String)
        (hasTok : Bool) (e : String) (insertOk : Bool) (newId : String)
        (now : Nat) (compResp : DriveResponse),
        (Api.createProjectHandler db auth title? academicYear? status? yearNow
            hasTok (.error e) insertOk newId now compResp).db = db ∧
        (Api.createProjectHandler db auth title? academicYear? status? yearNow
            hasTok (.error e) insertOk newId now compResp).compensationAttempted
            = false ∧
        (Api.createProjectHandler db auth title? academicYear? status? yearNow
            hasTok (.error e) insertOk newId now compResp).status ≠ 201) ∧
    (∀ (db : DB) (uid : String)
        (title? academicYear? status? : Option String) (yearNow : String)
        (driveId newId : String) (now : Nat) (compResp : DriveResponse),
        Api.truthyStr title? = true →
        (Repo.projectsGetAll db { user_id := uid }).any
            (fun p => p.title == Api.projectDisplayName title? academicYear? yearNow)
            = false →
        Api.createProjectHandler db (some uid) title? academicYear? status?
            yearNow true (.ok driveId) false newId now compResp
          = ⟨500, db, true⟩) ∧
    (∀ (db : DB) (auth : Option String)
        (title? academicYear? status? : Option String) (yearNow : String)
        (hasTok : Bool) (driveCreate : Except String String) (insertOk : Bool)
        (newId : String) (now : Nat) (c1 c2 : DriveResponse),
        Api.createProjectHandler db auth title? academicYear? status? yearNow
            hasTok driveCreate insertOk newId now c1
          = Api.createProjectHandler db auth title? academicYear? status? yearNow
            hasTok driveCreate insertOk newId now c2) ∧
    (∀ (db : DB) (uid : String)
        (title? academicYear? status? : Option String) (yearNow : String)
        (driveId newId : String) (now : Nat) (compResp : DriveResponse),
        Api.truthyStr title? = true →
        (Repo.projectsGetAll db { user_id := uid }).any
            (fun p => p.title == Api.projectDisplayName title? academicYear? yearNow)
            = false →
        Api.createProjectHandler db (some uid) title? academicYear? status?
            yearNow true (.ok driveId) true newId now compResp
          = ⟨201,
             { db with projects := db.projects ++
                 [{ id := newId, user_id := uid,
                    title := Api.projectDisplayName title? academicYear? yearNow,
                    status := if Api.truthyStr status? then status?.getD "" else "active",
                    root_drive_id := driveId, is_deleted := false,
                    deleted_at := none, created_at := now, updated_at := now }] },
             false⟩) := by
  refine ⟨?_, ?_, ?_, ?_⟩
  · intro db auth t a s yearNow hasTok e insertOk newId now compResp
    cases auth with
    | none => exact ⟨rfl, rfl, by simp [Api.createProjectHandler]⟩
    | some uid =>
      cases hasTok <;> by_cases h1 : Api.truthyStr t <;>
        by_cases h2 : (Repo.projectsGetAll db { user_id := uid }).any
            (fun p => p.title == Api.projectDisplayName t a yearNow) <;>
        simp [Api.createProjectHandler, h1, h2]
  · intro db uid t a s yearNow driveId newId now compResp h1 h2
    simp [Api.createProjectHandler, h1, h2]
  · intro db auth t a s yearNow hasTok driveCreate insertOk newId now c1 c2
    cases auth with
    | none => rfl
    | some uid => simp only [Api.createProjectHandler]
  · intro db uid t a s yearNow driveId newId now compResp h1 h2
    simp [Api.createProjectHandler, h1, h2]

/-- Closed witness for C8: with the Drive container d9 created and the DB
insert failing, the handler answers 500, keeps the store unchanged and
attempts the compensating delete. -/
theorem C8_project_create_two_phase_witness :
    Api.createProjectHandler sampleDB (some "alice") (some "New") none none
        "2025" true (.ok "d9") false "p9" 9 badResp
      = ⟨500, sampleDB, true⟩ :=
  C8_project_create_two_phase.2.1 sampleDB "alice" (some "New") none none
    "2025" "d9" "p9" 9 badResp (by decide) (by decide)

/-- The PATCH update object (title/status plus updated_at) never touches a
row's id. -/
theorem applyProjectUpdates_id (r : ProjectRow) (t? s? : Option String)
    (now : Nat) : (Repo.applyProjectUpdates r t? s? now).id = r.id := by
  unfold Repo.applyProjectUpdates
  cases t? <;> cases s? <;> dsimp only <;> split_ifs <;> rfl

/-- The PATCH update object never touches a row's root_drive_id. -/
theorem applyProjectUpdates_root (r : ProjectRow) (t? s? : Option String)
    (now : Nat) :
    (Repo.applyProjectUpdates r t? s? now).root_drive_id = r.root_drive_id := by
  unfold Repo.applyProjectUpdates
  cases t? <;> cases s? <;> dsimp only <;> split_ifs <;> rfl

/-- C9: a project's root_drive_id is immutable after creation: the project
update endpoint (which applies only title/status changes), the soft-delete
and restore transitions, and empty_trash all leave the (id, root_drive_id)
association of every stored project row unchanged. -/
theorem C9_root_drive_id_immutable :
    (∀ (db : DB) (auth : Option String) (pid : String)
        (title? status? : Option String) (now : Nat),
        (Api.updateProjectHandler db auth pid title? status? now).db.projects.map
            (fun r => (r.id, r.root_drive_id))
          = db.projects.map (fun r => (r.id, r.root_drive_id))) ∧
    (∀ (db : DB) (auth : Option String) (pid : String) (hasTok : Bool)
        (resp : DriveResponse) (now : Nat),
        (Api.deleteProjectHandler db auth pid hasTok resp now).db.projects.map
            (fun r => (r.id, r.root_drive_id))
          = db.projects.map (fun r => (r.id, r.root_drive_id))) ∧
    (∀ (db : DB) (auth : Option String) (pid : String) (hasTok : Bool)
        (resp : DriveResponse) (now : Nat),
        (Api.restoreProjectHandler db auth pid hasTok resp now).db.projects.map
            (fun r => (r.id, r.root_drive_id))
          = db.projects.map (fun r => (r.id, r.root_drive_id))) ∧
    (∀ (db : DB) (auth : Option String) (pid : String) (hasTok : Bool)
        (driveResps : String → DriveResponse),
        (Api.emptyTrashHandler db auth pid hasTok driveResps).db.projects
          = db.projects) := by
  refine ⟨?_, ?_, ?_, ?_⟩
  · intro db auth pid t? s? now
    cases auth with
    | none => rfl
    | some uid =>
      simp only [Api.updateProjectHandler]
      cases hfind : Repo.projectGetByIdWithoutUser db pid with
      | none => rfl
      | some p =>
        dsimp only
        split
        · rfl
        · simp only [Repo.projectsUpdateWithoutUser, List.map_map]
          apply List.map_eq_map_iff.mpr
          intro r _
          by_cases h : r.id == pid <;>
            simp [h, Function.comp, applyProjectUpdates_id, applyProjectUpdates_root]
  · intro db auth pid hasTok resp now
    cases auth with
    | none => rfl
    | some uid =>
      simp only [Api.deleteProjectHandler]
      cases hfind : Repo.projectGetByIdWithoutUser db pid with
      | none => rfl
      | some p =>
        dsimp only
        split
        · rfl
        · simp only [Repo.projectsSoftDelete, List.map_map]
          apply List.map_eq_map_iff.mpr
          intro r _
          by_cases h : r.id == pid && r.user_id == uid <;>
            simp [h, Function.comp, Repo.projectSoftDeleteRow]
  · intro db auth pid hasTok resp now
    cases auth with
    | none => rfl
    | some uid =>
      simp only [Api.restoreProjectHandler]
      cases hfind : (Repo.projectsGetAll db { user_id := uid, is_deleted := some true }).find?
          (fun r => r.id == pid) with
      | none => rfl
      | some p =>
        dsimp only
        split
        · rfl
        · simp only [Repo.projectsRestore, List.map_map]
          apply List.map_eq_map_iff.mpr
          intro r _
          by_cases h : r.id == pid && r.user_id == uid <;>
            simp [h, Function.comp, Repo.projectRestoreRow]
  · intro db auth pid hasTok driveResps
    cases auth with
    | none => rfl
    | some uid =>
      simp only [Api.emptyTrashHandler]
      cases hfind : Repo.projectGetByIdWithoutUser db pid with
      | none => rfl
      | some p =>
        dsimp only
        split
        · rfl
        · rw [purgeFolders_projects, purgeFiles_projects]
